import Mathlib

/-!
Shallow embedding of the whatawhat-lib core (idle tracker, TTL cache,
GNOME window-data handling, GNOME construction retry loop, Wayland
wlr-foreign-toplevel dispatch, background-pumped is_idle reads),
translated from the Rust sources, with theorems checking the claims of
the specification about them.

Time convention: chrono `DateTime<Utc>` and `TimeDelta` are modelled as
`Int` counts of milliseconds; `TimeDelta::num_seconds` truncates toward
zero, which is `Int.tdiv · 1000`. `std::time::SystemTime` and
`Duration` in the cache are modelled as `Nat` time units. A Rust panic
(`unwrap` / `expect` / `todo`) is modelled by an `Option` result being
`none`.
-/

namespace Whatawhat

namespace Idle

/-- State of `idle::Tracker` (src/idle.rs). -/
structure Tracker where
  last_input_time : Int
  is_idle : Bool
  is_changed : Bool
  idle_timeout : Int
  idle_end : Option Int
deriving Repr, DecidableEq

/-- The `idle::Status` enum (src/idle.rs). -/
inductive Status where
  | idle (changed : Bool) (last_input_time : Int) (duration : Int)
  | active (changed : Bool) (last_input_time : Int)
deriving Repr, DecidableEq

/-- Projection of the `changed` field shared by both `Status` variants. -/
def Status.changed : Status → Bool
  | .idle c _ _ => c
  | .active c _ => c

/-- Projection of the `last_input_time` field shared by both variants. -/
def Status.last_input_time : Status → Int
  | .idle _ l _ => l
  | .active _ l => l

/-- chrono `TimeDelta::num_seconds` on a millisecond count: whole
seconds, truncating toward zero. -/
def num_seconds (d : Int) : Int := Int.tdiv d 1000

/-- `Tracker::new`. -/
def Tracker.new (now : Int) (idle_timeout : Int) : Tracker :=
  { last_input_time := now
    is_idle := false
    is_changed := false
    idle_timeout := idle_timeout
    idle_end := none }

/-- Private `Tracker::set_idle`: stores the flag and latches
`is_changed` unconditionally. -/
def Tracker.set_idle (t : Tracker) (b : Bool) : Tracker :=
  { t with is_idle := b, is_changed := true }

/-- `Tracker::mark_not_idle`. -/
def Tracker.mark_not_idle (t : Tracker) (now : Int) : Tracker :=
  let t := { t with last_input_time := now }
  let t := t.set_idle false
  { t with idle_end := some now }

/-- `Tracker::mark_idle`: ignores its timestamp argument. -/
def Tracker.mark_idle (t : Tracker) (_now : Int) : Tracker :=
  t.set_idle true

/-- Private `Tracker::get_status`: derives the status from the current
state and resets the `is_changed` latch. -/
def Tracker.get_status (t : Tracker) (now : Int) : Status × Tracker :=
  let result :=
    if t.is_changed then
      if t.is_idle then
        Status.idle t.is_changed t.last_input_time (now - t.last_input_time)
      else
        Status.active t.is_changed t.last_input_time
    else if t.is_idle then
      Status.idle t.is_changed t.last_input_time (now - t.last_input_time)
    else
      Status.active t.is_changed t.last_input_time
  (result, { t with is_changed := false })

/-- `Tracker::get_with_last_input`. The result is `none` when
`idle_timeout.num_seconds().try_into::<u64>()` would panic, i.e. when
the whole-second timeout is negative. -/
def Tracker.get_with_last_input (t : Tracker) (now : Int) (seconds_since_input : Nat) :
    Option (Status × Tracker) :=
  let time_since_input : Int := 1000 * (seconds_since_input : Int)
  let t := { t with last_input_time := now - time_since_input }
  if num_seconds t.idle_timeout < 0 then none
  else
    let t :=
      if t.is_idle ∧ (seconds_since_input : Int) < num_seconds t.idle_timeout then
        t.set_idle false
      else if ¬t.is_idle ∧ (seconds_since_input : Int) ≥ num_seconds t.idle_timeout then
        t.set_idle true
      else t
    some (t.get_status now)

/-- `Tracker::get_reactive`. -/
def Tracker.get_reactive (t : Tracker) (now : Int) : Status × Tracker :=
  let t :=
    if ¬t.is_idle then
      let t := { t with last_input_time := max t.last_input_time (now - t.idle_timeout) }
      match t.idle_end with
      | some idle_end =>
          if t.last_input_time < idle_end then { t with last_input_time := idle_end } else t
      | none => t
    else t
  t.get_status now

end Idle

namespace Cache

/-- A stored entry of `SimpleCache` (src/simple_cache.rs). -/
structure CacheEntry (T : Type) where
  data : T
  timestamp : Nat
deriving Repr, DecidableEq

/-- `CacheConfig` (src/simple_cache.rs). -/
structure CacheConfig where
  ttl : Nat
  max_size : Nat
deriving Repr, DecidableEq

/-- `SimpleCache` (src/simple_cache.rs). The Rust `HashMap` is modelled
as an association list whose `insert` removes any previous binding of
the key, so the list length is the map size. -/
structure SimpleCache (G T : Type) where
  cache : List (G × CacheEntry T)
  config : CacheConfig
deriving Repr, DecidableEq

/-- `SystemTime::elapsed` at observation time `now`: `none` models the
panic of `.expect` when the stored timestamp lies in the future. -/
def elapsedAt (timestamp now : Nat) : Option Nat :=
  if timestamp ≤ now then some (now - timestamp) else none

variable {G T : Type} [DecidableEq G]

/-- `SimpleCache::get` at observation time `now`. Returns the looked-up
value and the possibly shrunk cache; `none` models a panic. -/
def SimpleCache.get (c : SimpleCache G T) (now : Nat) (key : G) :
    Option (Option T × SimpleCache G T) :=
  match c.cache.find? (fun p => decide (p.1 = key)) with
  | none => some (none, c)
  | some (_, entry) =>
    match elapsedAt entry.timestamp now with
    | none => none
    | some e =>
      if e < c.config.ttl then some (some entry.data, c)
      else some (none, { c with cache := c.cache.filter (fun p => decide (¬p.1 = key)) })

/-- `SimpleCache::cleanup` at observation time `now`: retains exactly
the unexpired entries; `none` models the panic of `.expect` inside the
`retain` closure. -/
def SimpleCache.cleanup (c : SimpleCache G T) (now : Nat) : Option (SimpleCache G T) :=
  if c.cache.all (fun p => decide (p.2.timestamp ≤ now)) then
    some { c with cache := c.cache.filter (fun p => decide (now - p.2.timestamp < c.config.ttl)) }
  else none

/-- `SimpleCache::set` at time `now` (the Rust code stamps the entry
with `SystemTime::now()`): inserts unconditionally, then sweeps only
when the size exceeds `max_size`. -/
def SimpleCache.set (c : SimpleCache G T) (now : Nat) (key : G) (data : T) :
    Option (SimpleCache G T) :=
  let entry : CacheEntry T := { data := data, timestamp := now }
  let c' : SimpleCache G T :=
    { c with cache := (key, entry) :: c.cache.filter (fun p => decide (¬p.1 = key)) }
  if c'.cache.length > c'.config.max_size then c'.cleanup now else some c'

end Cache

namespace Gnome

/-- The deserialized `WindowData` payload (src/gnome.rs); its derived
`Default` has empty title and empty window class. -/
structure WindowData where
  title : String
  wm_class : String
deriving Repr, DecidableEq

/-- Derived `WindowData::default()`. -/
def WindowData.default : WindowData := { title := "", wm_class := "" }

/-- Rust `str::contains` for a literal pattern: substring test. -/
def containsPhrase (s pat : String) : Bool :=
  decide (List.IsInfix pat.data s.data)

/-- `GnomeWindowWatcher::get_window_data` (src/gnome.rs), abstracted
over the DBus call outcome and the two-stage body deserialization
(string extraction then JSON parse), which are external. -/
def get_window_data (call_response : Except String String)
    (parse : String → Except String WindowData) : Except String WindowData :=
  match call_response with
  | .ok json => parse json
  | .error e =>
    if containsPhrase e "No window in focus" then .ok WindowData.default
    else .error e

/-- The construction retry loop of `GnomeWindowWatcher::new`
(src/gnome.rs): `watcher` starts as an error, the loop body runs for
`_ in 0..3` reassigning `watcher = loader()` each time and sleeping
3 seconds after a failed attempt, with no early exit on success. The
first component is the final `watcher`; the second counts the
3-second sleeps performed. -/
def new_retry_loop {W : Type} (loader : Nat → Except String W) :
    Except String W × Nat :=
  (List.range 3).foldl
    (fun acc i =>
      match loader i with
      | .ok w => (Except.ok w, acc.2)
      | .error e => (Except.error e, acc.2 + 1))
    (Except.error "", 0)

end Gnome

namespace WaylandWlr

/-- Per-toplevel `WindowData` (src/wayland_wlr.rs). -/
structure WindowData where
  app_id : String
  title : String
deriving Repr, DecidableEq

/-- `ToplevelState` (src/wayland_wlr.rs); the `HashMap` of windows is
modelled as an association list whose insert replaces prior bindings. -/
structure ToplevelState where
  windows : List (String × WindowData)
  current_window_id : Option String
deriving Repr, DecidableEq

/-- The `ZwlrForeignToplevelManagerV1` events the dispatcher looks at. -/
inductive ManagerEvent where
  | toplevel (id : String)
  | finished
  | other
deriving Repr, DecidableEq

/-- The `Dispatch<ZwlrForeignToplevelManagerV1> for ToplevelState`
handler: `Toplevel` inserts a placeholder window record; `Finished`
only logs an error message and changes nothing; other events are
ignored. -/
def ToplevelState.managerEvent (s : ToplevelState) (e : ManagerEvent) : ToplevelState :=
  match e with
  | .toplevel id =>
    { s with windows :=
        (id, { app_id := "unknown", title := "unknown" }) ::
          s.windows.filter (fun p => decide (¬p.1 = id)) }
  | .finished => s
  | .other => s

/-- `WaylandWindowWatcherInner::run_iteration` (src/wayland_wlr.rs),
abstracted over the roundtrip outcome. The success path constructs
`ActiveWindowData` with `process_path: todo!()`, which panics, so a
found current window yields `none` (panic); the other paths yield the
listed errors. -/
def ToplevelState.run_iteration (roundtrip_ok : Bool) (s : ToplevelState) :
    Option (Except String WindowData) :=
  if roundtrip_ok = false then some (Except.error "Event queue is not processed")
  else
    match s.current_window_id with
    | none => some (Except.error "Current window is unknown")
    | some id =>
      match s.windows.find? (fun p => decide (p.1 = id)) with
      | none => some (Except.error "Current window is not found by ID")
      | some _ => none

end WaylandWlr

namespace Pumped

/-- `KdeWindowManager::is_idle` (src/kde.rs): reads the last status
published by the background pump into the shared cell. -/
def KdeWindowManager.is_idle (current_idle_status : Option Idle.Status) :
    Except String Bool :=
  match current_idle_status with
  | some (.active _ _) => .ok false
  | some (.idle _ _ _) => .ok true
  | none => .ok false

/-- `WaylandWindowWatcher::is_idle` (src/wayland_wlr.rs): identical
read of the shared cell of the pump. -/
def WaylandWindowWatcher.is_idle (current_idle_status : Option Idle.Status) :
    Except String Bool :=
  match current_idle_status with
  | some (.active _ _) => .ok false
  | some (.idle _ _ _) => .ok true
  | none => .ok false

end Pumped

end Whatawhat

namespace Whatawhat

open Cache

/-! ## Theorems about the embedded code -/

/-- C1: polled protocol boundary of `Tracker::get_with_last_input`. For
every tracker state, after the call `last_input_time` equals
`now - seconds_since_input`; an idle tracker with
`seconds_since_input` below the whole-second timeout transitions to
not-idle; an active tracker with `seconds_since_input` at or above the
whole-second timeout transitions to idle; the tie counts as idle and
`idle_timeout - 1` stays active. -/
theorem polled_protocol_boundary (t : Idle.Tracker) (now : Int) (s : Nat)
    (h : 0 ≤ Idle.num_seconds t.idle_timeout) :
    ((t.get_with_last_input now s).map (fun p => (p.2).last_input_time)
        = some (now - 1000 * (s : Int)))
  ∧ (t.is_idle = true → (s : Int) < Idle.num_seconds t.idle_timeout →
      (t.get_with_last_input now s).map (fun p => (p.2).is_idle) = some false)
  ∧ (t.is_idle = false → Idle.num_seconds t.idle_timeout ≤ (s : Int) →
      (t.get_with_last_input now s).map (fun p => (p.2).is_idle) = some true)
  ∧ (t.is_idle = false → (s : Int) = Idle.num_seconds t.idle_timeout →
      (t.get_with_last_input now s).map (fun p => (p.2).is_idle) = some true)
  ∧ (t.is_idle = false → (s : Int) = Idle.num_seconds t.idle_timeout - 1 →
      (t.get_with_last_input now s).map (fun p => (p.2).is_idle) = some false) := by
  have h' : ¬ Idle.num_seconds t.idle_timeout < 0 := not_lt.mpr h
  cases ht : t.is_idle <;>
    simp_all [Idle.Tracker.get_with_last_input, Idle.Tracker.get_status,
      Idle.Tracker.set_idle] <;>
    split_ifs <;> simp_all

/-- C1 witness: an active tracker with a 30-second timeout polled with
exactly 30 seconds since input becomes idle. -/
theorem polled_protocol_boundary_witness :
    (0 ≤ Idle.num_seconds (Idle.Tracker.new 0 30000).idle_timeout)
  ∧ (((Idle.Tracker.new 0 30000).get_with_last_input 100000 30).map
        (fun p => (p.2).is_idle) = some true) :=
  ⟨by decide,
    (polled_protocol_boundary (Idle.Tracker.new 0 30000) 100000 30 (by decide)).2.2.1
      rfl (by decide)⟩

/-- C2 counterexample: `mark_not_idle` on a tracker that is already
active latches `is_changed` even though the idle/active state did not
transition, so the next status read reports `changed = true` after the
value Active has already been reported once, with no intervening
transition. -/
theorem change_latch_counterexample :
    (((Idle.Tracker.new 0 30000).get_reactive 1000).1
        = Idle.Status.active false 0)
  ∧ (((Idle.Tracker.new 0 30000).get_reactive 1000).2.is_idle = false)
  ∧ ((((Idle.Tracker.new 0 30000).get_reactive 1000).2.mark_not_idle 5000).is_idle = false)
  ∧ (((((Idle.Tracker.new 0 30000).get_reactive 1000).2.mark_not_idle 5000).get_reactive
        6000).1.changed = true) := by decide

/-- Helper: every status derivation reports the latch. -/
theorem get_status_changed (t : Idle.Tracker) (now : Int) :
    (t.get_status now).1.changed = t.is_changed := by
  cases hc : t.is_changed <;> cases ht : t.is_idle <;>
    simp [Idle.Tracker.get_status, hc, ht, Idle.Status.changed]

/-- Helper: status derivation resets the latch. -/
theorem get_status_resets (t : Idle.Tracker) (now : Int) :
    (t.get_status now).2.is_changed = false := rfl

/-- Helper: status derivation keeps the idle flag. -/
theorem get_status_is_idle (t : Idle.Tracker) (now : Int) :
    (t.get_status now).2.is_idle = t.is_idle := rfl

/-- Helper: the reactive read reports the latch as it was. -/
theorem get_reactive_changed (t : Idle.Tracker) (now : Int) :
    (t.get_reactive now).1.changed = t.is_changed := by
  cases he : t.idle_end <;> by_cases ht : t.is_idle <;>
    simp [Idle.Tracker.get_reactive, he, ht, get_status_changed] <;>
    split_ifs <;> simp [get_status_changed]

/-- C2 amended: every status read resets the `is_changed` latch and
reports its prior value, so two consecutive status reads with no
intervening state-altering call never both report `changed = true`;
however `mark_idle` and `mark_not_idle` latch `is_changed`
unconditionally, even when the idle flag value is unchanged, while the
polled protocol reports a change exactly when the idle flag actually
flipped. -/
theorem change_latch_amended (t : Idle.Tracker) (now now2 : Int) (s : Nat) :
    ((t.get_status now).2.is_changed = false)
  ∧ ((t.get_status now).1.changed = t.is_changed)
  ∧ ((t.get_reactive now).1.changed = t.is_changed)
  ∧ ((t.get_reactive now).2.is_changed = false)
  ∧ (((t.get_status now).2.get_reactive now2).1.changed = false)
  ∧ ((t.mark_not_idle now).is_changed = true)
  ∧ ((t.mark_idle now).is_changed = true)
  ∧ (t.is_changed = false →
      (t.get_with_last_input now s).map (fun p => (p.1).changed)
        = (t.get_with_last_input now s).map (fun p => (p.2).is_idle != t.is_idle)) := by
  refine ⟨get_status_resets t now, get_status_changed t now, get_reactive_changed t now,
    ?_, ?_, ?_, ?_, ?_⟩
  · cases he : t.idle_end <;> by_cases ht : t.is_idle <;>
      simp [Idle.Tracker.get_reactive, he, ht, get_status_resets] <;>
      split_ifs <;> simp [get_status_resets]
  · rw [get_reactive_changed, get_status_resets]
  · simp [Idle.Tracker.mark_not_idle, Idle.Tracker.set_idle]
  · simp [Idle.Tracker.mark_idle, Idle.Tracker.set_idle]
  · intro hc
    simp only [Idle.Tracker.get_with_last_input]
    split_ifs with h1 h2 h3 <;>
      simp_all [get_status_changed, get_status_is_idle, Idle.Tracker.set_idle]

/-- C2 amended witness: a fresh tracker polled once reports a change
exactly when the poll flipped the idle flag. -/
theorem change_latch_amended_witness :
    ((Idle.Tracker.new 0 30000).is_changed = false)
  ∧ (((Idle.Tracker.new 0 30000).get_with_last_input 50000 7).map (fun p => (p.1).changed)
      = ((Idle.Tracker.new 0 30000).get_with_last_input 50000 7).map
          (fun p => (p.2).is_idle != (Idle.Tracker.new 0 30000).is_idle)) :=
  ⟨rfl, (change_latch_amended (Idle.Tracker.new 0 30000) 50000 0 7).2.2.2.2.2.2.2 rfl⟩

/-- C3: reactive clamp. While active, `get_reactive` raises
`last_input_time` to the maximum of its previous value,
`now - idle_timeout`, and `idle_end` when set, and the reported value
is never earlier than `now - idle_timeout` nor than `idle_end`; while
idle it leaves `last_input_time` unchanged. -/
theorem reactive_clamp (t : Idle.Tracker) (now : Int) :
    (t.is_idle = false →
      ((t.get_reactive now).2.last_input_time
          = max (max t.last_input_time (now - t.idle_timeout))
              ((t.idle_end).getD (now - t.idle_timeout)))
      ∧ (t.get_reactive now).1.last_input_time = (t.get_reactive now).2.last_input_time
      ∧ now - t.idle_timeout ≤ (t.get_reactive now).1.last_input_time
      ∧ (t.idle_end).getD (now - t.idle_timeout) ≤ (t.get_reactive now).1.last_input_time)
  ∧ (t.is_idle = true →
      (t.get_reactive now).2.last_input_time = t.last_input_time
      ∧ (t.get_reactive now).1.last_input_time = t.last_input_time) := by
  cases ht : t.is_idle <;> cases he : t.idle_end <;>
    simp_all [Idle.Tracker.get_reactive, Idle.Tracker.get_status,
      Idle.Status.last_input_time] <;>
    split_ifs <;> simp_all [Idle.Status.last_input_time] <;> omega

/-- C3 witness: an active tracker with a stale timestamp, a 30-second
timeout and a recorded resume is clamped at `get_reactive`. -/
theorem reactive_clamp_witness :
    ((Idle.Tracker.mk 2000 false false 30000 (some 42000)).is_idle = false)
  ∧ (((Idle.Tracker.mk 2000 false false 30000 (some 42000)).get_reactive
        100000).2.last_input_time
      = max (max 2000 (100000 - 30000)) ((some (42000 : Int)).getD (100000 - 30000))) :=
  ⟨rfl, ((reactive_clamp (Idle.Tracker.mk 2000 false false 30000 (some 42000)) 100000).1
      rfl).1⟩

/-- C4: push protocol frame effects. `mark_not_idle` sets
`last_input_time = now`, clears the idle flag and records
`idle_end = now`; `mark_idle` sets the idle flag and leaves both
`last_input_time` and `idle_end` unchanged. -/
theorem push_protocol_frame (t : Idle.Tracker) (now : Int) :
    ((t.mark_not_idle now).last_input_time = now)
  ∧ ((t.mark_not_idle now).is_idle = false)
  ∧ ((t.mark_not_idle now).idle_end = some now)
  ∧ ((t.mark_idle now).is_idle = true)
  ∧ ((t.mark_idle now).last_input_time = t.last_input_time)
  ∧ ((t.mark_idle now).idle_end = t.idle_end) := by
  simp [Idle.Tracker.mark_not_idle, Idle.Tracker.mark_idle, Idle.Tracker.set_idle]

/-- Helper: after a successful `set`, the config is unchanged and the
key either maps to the fresh entry or, only when `ttl = 0`, was swept
away immediately. -/
theorem set_find_characterization {G T : Type} [DecidableEq G]
    (c c' : SimpleCache G T) (k : G) (v : T) (t0 : Nat)
    (hset : c.set t0 k v = some c') :
    c'.config = c.config ∧
    (c'.cache.find? (fun p => decide (p.1 = k)) = some (k, ⟨v, t0⟩)
      ∨ (c.config.ttl = 0 ∧ c'.cache.find? (fun p => decide (p.1 = k)) = none)) := by
  simp only [SimpleCache.set, SimpleCache.cleanup] at hset
  split_ifs at hset with h1 h2
  · -- sweep ran
    rw [Option.some.injEq] at hset
    subst hset
    constructor
    · rfl
    · by_cases httl : 0 < c.config.ttl
      · left
        rw [List.filter_cons, if_pos (by simp [httl])]
        exact List.find?_cons_of_pos _ (by simp)
      · right
        have httl0 : c.config.ttl = 0 := by omega
        refine ⟨httl0, ?_⟩
        rw [List.find?_eq_none]
        intro p hp
        have hpmem := List.mem_of_mem_filter hp
        have hpg := List.of_mem_filter hp
        rcases List.mem_cons.mp hpmem with h | h
        · subst h
          simp [httl0] at hpg
        · have := List.of_mem_filter h
          simpa using this
  · -- no sweep
    rw [Option.some.injEq] at hset
    subst hset
    constructor
    · rfl
    · left
      exact List.find?_cons_of_pos _ (by simp)

/-- C5: TTL cache expiry. After a successful `set` of key `k` at time
`t0`, a `get` of `k` before `t0 + ttl` returns the value, a `get` at or
after `t0 + ttl` returns nothing and removes the entry, and a `get` on
an absent key returns nothing. -/
theorem cache_expiry {G T : Type} [DecidableEq G] (c c' : SimpleCache G T)
    (k : G) (v : T) (t0 now : Nat)
    (hset : c.set t0 k v = some c') (hle : t0 ≤ now) :
    (now < t0 + c.config.ttl → c'.get now k = some (some v, c'))
  ∧ (t0 + c.config.ttl ≤ now →
      c'.get now k
        = some (none, { c' with cache := c'.cache.filter (fun p => decide (¬p.1 = k)) }))
  ∧ (∀ (d : SimpleCache G T) (k0 : G),
      d.cache.find? (fun p => decide (p.1 = k0)) = none → d.get now k0 = some (none, d)) := by
  obtain ⟨hcfg, hfind⟩ := set_find_characterization c c' k v t0 hset
  refine ⟨?_, ?_, ?_⟩
  · intro hlt
    rcases hfind with hf | ⟨h0, _⟩
    · simp only [SimpleCache.get, hf, elapsedAt, if_pos hle]
      rw [if_pos (by rw [hcfg]; omega)]
    · omega
  · intro hge
    rcases hfind with hf | ⟨h0, hnone⟩
    · simp only [SimpleCache.get, hf, elapsedAt, if_pos hle]
      rw [if_neg (by rw [hcfg]; omega)]
    · simp only [SimpleCache.get, hnone]
      have hid : c'.cache.filter (fun p => decide (¬p.1 = k)) = c'.cache := by
        rw [List.filter_eq_self]
        intro p hp
        have := List.find?_eq_none.mp hnone p hp
        simpa using this
      refine congrArg some (congrArg (Prod.mk none) ?_)
      show c' = { cache := c'.cache.filter (fun p => decide (¬p.1 = k)), config := c'.config }
      rw [hid]
  · intro d k0 hnone
    simp [SimpleCache.get, hnone]


/-- C6: eviction sweep. `set` inserts or overwrites unconditionally;
when the resulting size stays within `max_size` no sweep runs, when it
exceeds `max_size` a full sweep keeps exactly the unexpired entries,
and an unexpired entry is never evicted by size pressure. -/
theorem cache_eviction_sweep {G T : Type} [DecidableEq G] (c : SimpleCache G T)
    (k : G) (v : T) (now : Nat)
    (hts : c.cache.all (fun p => decide (p.2.timestamp ≤ now)) = true) :
    (((k, (⟨v, now⟩ : CacheEntry T)) :: c.cache.filter (fun p => decide (¬p.1 = k))).length
        ≤ c.config.max_size →
      c.set now k v
        = some ⟨(k, ⟨v, now⟩) :: c.cache.filter (fun p => decide (¬p.1 = k)), c.config⟩)
  ∧ (c.config.max_size
        < ((k, (⟨v, now⟩ : CacheEntry T)) :: c.cache.filter (fun p => decide (¬p.1 = k))).length →
      c.set now k v
        = some ⟨((k, (⟨v, now⟩ : CacheEntry T)) :: c.cache.filter (fun p => decide (¬p.1 = k))).filter
            (fun p => decide (now - p.2.timestamp < c.config.ttl)), c.config⟩)
  ∧ (∀ c' : SimpleCache G T, c.set now k v = some c' →
      ∀ p : G × CacheEntry T,
        p ∈ (k, (⟨v, now⟩ : CacheEntry T)) :: c.cache.filter (fun p => decide (¬p.1 = k)) →
        now - p.2.timestamp < c.config.ttl → p ∈ c'.cache) := by
  have hguard : (((k, (⟨v, now⟩ : CacheEntry T)) ::
      c.cache.filter (fun p => decide (¬p.1 = k))).all
        (fun p => decide (p.2.timestamp ≤ now))) = true := by
    rw [List.all_eq_true] at hts ⊢
    intro p hp
    rcases List.mem_cons.mp hp with h | h
    · subst h; simp
    · exact hts p (List.mem_of_mem_filter h)
  refine ⟨?_, ?_, ?_⟩
  · intro hlen
    simp only [SimpleCache.set, SimpleCache.cleanup]
    rw [if_neg (by simpa using hlen)]
  · intro hlen
    simp only [SimpleCache.set, SimpleCache.cleanup]
    rw [if_pos (by simpa using hlen), if_pos hguard]
  · intro c' hset p hp hunexp
    simp only [SimpleCache.set, SimpleCache.cleanup] at hset
    split_ifs at hset with h1 h2
    · rw [Option.some.injEq] at hset
      subst hset
      exact List.mem_filter.mpr ⟨hp, by simpa using hunexp⟩
    · rw [Option.some.injEq] at hset
      subst hset
      exact hp


/-- C5 witness: a fresh entry set at time 5 with ttl 10 is returned by
a get at time 7. -/
theorem cache_expiry_witness :
    ((⟨[], ⟨10, 2⟩⟩ : SimpleCache Nat Nat).set 5 1 99
        = some (⟨[(1, ⟨99, 5⟩)], ⟨10, 2⟩⟩ : SimpleCache Nat Nat))
  ∧ ((5 : Nat) ≤ 7)
  ∧ ((⟨[(1, ⟨99, 5⟩)], ⟨10, 2⟩⟩ : SimpleCache Nat Nat).get 7 1
        = some (some 99, (⟨[(1, ⟨99, 5⟩)], ⟨10, 2⟩⟩ : SimpleCache Nat Nat))) :=
  ⟨rfl, by omega,
    (cache_expiry (⟨[], ⟨10, 2⟩⟩ : SimpleCache Nat Nat)
        (⟨[(1, ⟨99, 5⟩)], ⟨10, 2⟩⟩ : SimpleCache Nat Nat) 1 99 5 7 rfl (by omega)).1
      (by decide)⟩

/-- C6 witness: inserting a second entry past max_size 1 triggers the
sweep, which removes the expired old entry and keeps the fresh one. -/
theorem cache_eviction_sweep_witness :
    (((⟨[(1, ⟨10, 0⟩)], ⟨3, 1⟩⟩ : SimpleCache Nat Nat).cache.all
        (fun p => decide (p.2.timestamp ≤ 5)) = true)
  ∧ ((⟨[(1, ⟨10, 0⟩)], ⟨3, 1⟩⟩ : SimpleCache Nat Nat).config.max_size
      < (((2 : Nat), (⟨20, 5⟩ : CacheEntry Nat)) ::
          (⟨[(1, ⟨10, 0⟩)], ⟨3, 1⟩⟩ : SimpleCache Nat Nat).cache.filter
            (fun p => decide (¬p.1 = 2))).length)
  ∧ ((⟨[(1, ⟨10, 0⟩)], ⟨3, 1⟩⟩ : SimpleCache Nat Nat).set 5 2 20
      = some ⟨(((2 : Nat), (⟨20, 5⟩ : CacheEntry Nat)) ::
            (⟨[(1, ⟨10, 0⟩)], ⟨3, 1⟩⟩ : SimpleCache Nat Nat).cache.filter
              (fun p => decide (¬p.1 = 2))).filter
          (fun p => decide (5 - p.2.timestamp
              < (⟨[(1, ⟨10, 0⟩)], ⟨3, 1⟩⟩ : SimpleCache Nat Nat).config.ttl)),
        (⟨[(1, ⟨10, 0⟩)], ⟨3, 1⟩⟩ : SimpleCache Nat Nat).config⟩)) :=
  ⟨by decide, by decide,
    (cache_eviction_sweep (⟨[(1, ⟨10, 0⟩)], ⟨3, 1⟩⟩ : SimpleCache Nat Nat) 2 20 5
        (by decide)).2.1 (by decide)⟩

/-- C7: a remote-call error whose message contains the phrase
No window in focus yields success with empty title and class; every
other remote-call error propagates. -/
theorem gnome_no_window_in_focus (e : String)
    (parse : String → Except String Gnome.WindowData) :
    (Gnome.containsPhrase e "No window in focus" = true →
      Gnome.get_window_data (Except.error e) parse = Except.ok Gnome.WindowData.default)
  ∧ (Gnome.containsPhrase e "No window in focus" = false →
      Gnome.get_window_data (Except.error e) parse = Except.error e) := by
  constructor <;> intro h <;>
    simp [Gnome.get_window_data, h]

/-- C7 witness: a concrete DBus error message containing the phrase
yields the empty window data. -/
theorem gnome_no_window_in_focus_witness :
    (Gnome.containsPhrase "org.freedesktop.DBus.Error: No window in focus"
        "No window in focus" = true)
  ∧ (Gnome.get_window_data
        (Except.error "org.freedesktop.DBus.Error: No window in focus")
        (fun _ => Except.error "unused")
      = Except.ok Gnome.WindowData.default) :=
  ⟨by decide,
    (gnome_no_window_in_focus "org.freedesktop.DBus.Error: No window in focus"
        (fun _ => Except.error "unused")).1 (by decide)⟩

/-- C8: the construction retry loop evaluates the loader on all three
iterations and returns the result of the last attempt, so a loader that
succeeds on the first attempt and fails afterwards ends in an error
with two backoff sleeps: the successful attempt is discarded. -/
theorem gnome_retry_discards_success :
    ((Gnome.new_retry_loop
        (fun i => if i = 0 then Except.ok 0 else Except.error "endpoint gone")).1
      = Except.error "endpoint gone")
  ∧ ((Gnome.new_retry_loop
        (fun i => if i = 0 then Except.ok 0 else Except.error "endpoint gone")).2 = 2)
  ∧ (∀ (W : Type) (loader : Nat → Except String W),
      (Gnome.new_retry_loop loader).1 = loader 2) := by
  refine ⟨rfl, rfl, ?_⟩
  intro W loader
  have hr : List.range 3 = [0, 1, 2] := rfl
  simp only [Gnome.new_retry_loop, hr, List.foldl]
  rcases h2 : loader 2 <;> rcases h1 : loader 1 <;> rcases h0 : loader 0 <;>
    simp [h0, h1, h2]

/-- C9 counterexample: dispatching the Finished event leaves the
toplevel state unchanged and a subsequent poll behaves exactly as if
the event had never arrived, producing the same unrelated error, so no
fatal condition is recorded or surfaced. -/
theorem finished_event_counterexample :
    ((WaylandWlr.ToplevelState.mk [] none).managerEvent WaylandWlr.ManagerEvent.finished
        = WaylandWlr.ToplevelState.mk [] none)
  ∧ (WaylandWlr.ToplevelState.run_iteration true
        ((WaylandWlr.ToplevelState.mk [] none).managerEvent WaylandWlr.ManagerEvent.finished)
      = WaylandWlr.ToplevelState.run_iteration true (WaylandWlr.ToplevelState.mk [] none))
  ∧ (WaylandWlr.ToplevelState.run_iteration true (WaylandWlr.ToplevelState.mk [] none)
      = some (Except.error "Current window is unknown")) :=
  ⟨rfl, rfl, rfl⟩

/-- C9 amended: the Finished event is logged only; for every toplevel
state the dispatcher returns the state unchanged and every subsequent
poll result is identical to the result without the event. -/
theorem finished_event_ignored (s : WaylandWlr.ToplevelState) (ok : Bool) :
    (s.managerEvent WaylandWlr.ManagerEvent.finished = s)
  ∧ (WaylandWlr.ToplevelState.run_iteration ok
        (s.managerEvent WaylandWlr.ManagerEvent.finished)
      = WaylandWlr.ToplevelState.run_iteration ok s) :=
  ⟨rfl, rfl⟩

/-- C10: for the KDE and generic-Wayland backends, an is_idle call
before the background pump has published any status returns Ok false
rather than an error. -/
theorem pumped_is_idle_before_first_publication :
    (Pumped.KdeWindowManager.is_idle none = Except.ok false)
  ∧ (Pumped.WaylandWindowWatcher.is_idle none = Except.ok false) :=
  ⟨rfl, rfl⟩

end Whatawhat
